import Mathlib

/-!
Shallow embedding of `src/metadata.rs` of the Rexiv2Image repository.

The repository is a façade pairing a per-format pixel decoder (from the
`image` crate) with a metadata store (from the `rexiv2` crate).  The external
crates are opaque capability providers: we model a concrete decoder as a
record of operation results (an oracle), a metadata store as an opaque token,
and the external constructors / load / save entry points as oracle functions
collected in an environment record.  Everything defined below is translated
from the Rust source; external rendering (the `Display` of the wrapped crate
errors) is passed in as a function parameter.
-/

/-- Opaque model of `std::path::Path`: identified by its textual form. -/
structure FsPath where
  s : String
deriving DecidableEq, Repr

/-- Opaque model of an open `std::fs::File` handle. -/
structure File where
  path : String
deriving DecidableEq, Repr

/-- Opaque model of a `rexiv2::Metadata` tag store. -/
structure Metadata where
  store : Nat
deriving DecidableEq, Repr

/-- Opaque model of a `rexiv2::Rexiv2Error` value. -/
structure Rexiv2Error where
  code : Nat
deriving DecidableEq, Repr

/-- Opaque model of a `std::io::Error`; `description` is what
`Error::description()` returns on it. -/
structure IoError where
  description : String
deriving DecidableEq, Repr

/-- Model of `image::ColorType` (era of the source: `Gray`, `RGB`,
`Palette`, `GrayA`, `RGBA`, each with a bit depth). -/
inductive ColorType where
  | Gray (depth : Nat)
  | RGB (depth : Nat)
  | Palette (depth : Nat)
  | GrayA (depth : Nat)
  | RGBA (depth : Nat)
deriving DecidableEq, Repr

/-- Model of `image::ImageError`.  The source constructs only
`FormatError(String)`; every other variant of the external enum is collapsed
into the opaque `Other`. -/
inductive ImageError where
  | FormatError (s : String)
  | Other (code : Nat)
deriving DecidableEq, Repr

/-- Model of `image::DecodingResult`. -/
inductive DecodingResult where
  | U8 (bytes : List Nat)
  | U16 (words : List Nat)
deriving DecidableEq, Repr

/-- Opaque model of `image::Frames` (a sequence of decoded frames). -/
structure Frames where
  count : Nat
deriving DecidableEq, Repr

/-- Model of `image::ImageFormat` (era of the source: the eight formats the
code dispatches on, plus `WEBP` and `HDR`, which fall into the `_` arm of
`get_new_decoder`). -/
inductive ImageFormat where
  | PNG
  | JPEG
  | PNM
  | ICO
  | TIFF
  | TGA
  | BMP
  | GIF
  | WEBP
  | HDR
deriving DecidableEq, Repr

/-- Oracle for one concrete external decoder (a `PNGDecoder<File>`,
`JPEGDecoder<File>`, ...): the results its `ImageDecoder` trait methods would
produce.  Operations with arguments are functions of those arguments;
`read_scanline` returns the byte count together with the written buffer. -/
structure ImageDecoderImpl where
  dimensions : Except ImageError (Nat × Nat)
  colortype : Except ImageError ColorType
  row_len : Except ImageError Nat
  read_scanline : List Nat → Except ImageError (Nat × List Nat)
  read_image : Except ImageError DecodingResult
  is_animated : Except ImageError Bool
  into_frames : Except ImageError Frames
  load_rect : Nat → Nat → Nat → Nat → Except ImageError (List Nat)

/-- `enum DecoderType`: the tagged union over the eight per-format decoders. -/
inductive DecoderType where
  | PNG (d : ImageDecoderImpl)
  | JPEG (d : ImageDecoderImpl)
  | PNM (d : ImageDecoderImpl)
  | ICO (d : ImageDecoderImpl)
  | TIFF (d : ImageDecoderImpl)
  | TGA (d : ImageDecoderImpl)
  | BMP (d : ImageDecoderImpl)
  | GIF (d : ImageDecoderImpl)

/-- `enum Rexiv2ImageError`: the three-kind error taxonomy. -/
inductive Rexiv2ImageError where
  | MetadataError (e : Rexiv2Error)
  | DecoderError (e : ImageError)
  | Internal (s : String)
deriving DecidableEq, Repr

/-- `impl From<Rexiv2Error> for Rexiv2ImageError`. -/
def Rexiv2ImageError.fromRexiv2 (e : Rexiv2Error) : Rexiv2ImageError :=
  Rexiv2ImageError.MetadataError e

/-- `impl From<ImageError> for Rexiv2ImageError`. -/
def Rexiv2ImageError.fromImage (e : ImageError) : Rexiv2ImageError :=
  Rexiv2ImageError.DecoderError e

/-- `impl From<std::io::Error> for Rexiv2ImageError`: wraps the I/O error's
description string as an `Internal` error. -/
def Rexiv2ImageError.fromIo (e : IoError) : Rexiv2ImageError :=
  Rexiv2ImageError.Internal e.description

/-- `impl Display for Rexiv2ImageError`.  `dm` and `di` are the external
`Display` renderings of the wrapped `Rexiv2Error` / `ImageError` (those live
in the external crates): `Internal` writes its own string, the wrapping kinds
delegate to `err.fmt(f)`. -/
def Rexiv2ImageError.display (dm : Rexiv2Error → String)
    (di : ImageError → String) : Rexiv2ImageError → String
  | Rexiv2ImageError.Internal err_string => err_string
  | Rexiv2ImageError.MetadataError err => dm err
  | Rexiv2ImageError.DecoderError err => di err

/-- `Error::description` for `Rexiv2ImageError`; `descm` and `desci` are the
external `description()` of the wrapped errors. -/
def Rexiv2ImageError.descr (descm : Rexiv2Error → String)
    (desci : ImageError → String) : Rexiv2ImageError → String
  | Rexiv2ImageError.MetadataError err => descm err
  | Rexiv2ImageError.DecoderError err => desci err
  | Rexiv2ImageError.Internal err => err

/-- `Error::cause` for `Rexiv2ImageError`: the wrapping kinds expose their
wrapped error, `Internal` has no cause. -/
def Rexiv2ImageError.cause : Rexiv2ImageError → Option (Sum Rexiv2Error ImageError)
  | Rexiv2ImageError.MetadataError err => some (Sum.inl err)
  | Rexiv2ImageError.DecoderError err => some (Sum.inr err)
  | Rexiv2ImageError.Internal _ => none

/-- Oracles for the eight external decoder constructors used by
`get_new_decoder`.  `PNMDecoder::new`, `ICODecoder::new` and
`TIFFDecoder::new` are fallible in the `image` crate (they return
`ImageResult<Self>`); the other five constructors are infallible. -/
structure DecoderConstructors where
  pngNew : File → ImageDecoderImpl
  jpegNew : File → ImageDecoderImpl
  pnmNew : File → Except ImageError ImageDecoderImpl
  icoNew : File → Except ImageError ImageDecoderImpl
  tiffNew : File → Except ImageError ImageDecoderImpl
  tgaNew : File → ImageDecoderImpl
  bmpNew : File → ImageDecoderImpl
  gifNew : File → ImageDecoderImpl

/-- `DecoderWithMetadata::get_new_decoder`: selects and constructs the
concrete decoder for the format tag.  The `?` operator on the fallible
constructors converts the `ImageError` through `From<ImageError>`; the `_`
arm (here: `WEBP`, `HDR`) returns `Internal("Unsupported file format")`. -/
def get_new_decoder (ct : DecoderConstructors) (format : ImageFormat)
    (input_file : File) : Except Rexiv2ImageError DecoderType :=
  match format with
  | ImageFormat.PNG => Except.ok (DecoderType.PNG (ct.pngNew input_file))
  | ImageFormat.JPEG => Except.ok (DecoderType.JPEG (ct.jpegNew input_file))
  | ImageFormat.PNM =>
    match ct.pnmNew input_file with
    | Except.ok d => Except.ok (DecoderType.PNM d)
    | Except.error e => Except.error (Rexiv2ImageError.fromImage e)
  | ImageFormat.ICO =>
    match ct.icoNew input_file with
    | Except.ok d => Except.ok (DecoderType.ICO d)
    | Except.error e => Except.error (Rexiv2ImageError.fromImage e)
  | ImageFormat.TIFF =>
    match ct.tiffNew input_file with
    | Except.ok d => Except.ok (DecoderType.TIFF d)
    | Except.error e => Except.error (Rexiv2ImageError.fromImage e)
  | ImageFormat.TGA => Except.ok (DecoderType.TGA (ct.tgaNew input_file))
  | ImageFormat.BMP => Except.ok (DecoderType.BMP (ct.bmpNew input_file))
  | ImageFormat.GIF => Except.ok (DecoderType.GIF (ct.gifNew input_file))
  | ImageFormat.WEBP =>
    Except.error (Rexiv2ImageError.Internal "Unsupported file format")
  | ImageFormat.HDR =>
    Except.error (Rexiv2ImageError.Internal "Unsupported file format")

/-- `struct DecoderWithMetadata`: the composite of a metadata store and the
decoder union. -/
structure DecoderWithMetadata where
  metadata : Metadata
  decoder : DecoderType

/-- Environment of external entry points used by construction and
persistence: `Metadata::new_from_path`, `File::open`, the decoder
constructors, and `Metadata::save_to_file`. -/
structure Env where
  metadataLoad : FsPath → Except Rexiv2Error Metadata
  fileOpen : FsPath → Except IoError File
  ctors : DecoderConstructors
  metadataSave : Metadata → FsPath → Except Rexiv2Error Unit

/-- `DecoderWithMetadata::new`: loads the metadata store (a `Rexiv2Error`
becomes `MetadataError` through `From`), opens the file (an `io::Error`
becomes `Internal` through `From`), then selects the decoder, propagating its
error unchanged. -/
def DecoderWithMetadata.new (env : Env) (path : FsPath) (format : ImageFormat) :
    Except Rexiv2ImageError DecoderWithMetadata :=
  match env.metadataLoad path with
  | Except.error e => Except.error (Rexiv2ImageError.fromRexiv2 e)
  | Except.ok metadata =>
    match env.fileOpen path with
    | Except.error e => Except.error (Rexiv2ImageError.fromIo e)
    | Except.ok input_file =>
      match get_new_decoder env.ctors format input_file with
      | Except.error e => Except.error e
      | Except.ok decoder =>
        Except.ok { metadata := metadata, decoder := decoder }

/-- `DecoderWithMetadata::save_metadata`: saves the held store to the target
path; a `Rexiv2Error` becomes `MetadataError` through `From`. -/
def DecoderWithMetadata.save_metadata (env : Env) (c : DecoderWithMetadata)
    (path : FsPath) : Except Rexiv2ImageError Unit :=
  match env.metadataSave c.metadata path with
  | Except.ok u => Except.ok u
  | Except.error e => Except.error (Rexiv2ImageError.fromRexiv2 e)

/-- `impl ImageDecoder for DecoderType`, `dimensions`: the
`select_decoder_variant!` macro forwards to the PNG and JPEG members and
routes every other variant to `FormatError("Unsupported file format")`. -/
def DecoderType.dimensions : DecoderType → Except ImageError (Nat × Nat)
  | DecoderType.PNG d => d.dimensions
  | DecoderType.JPEG d => d.dimensions
  | _ => Except.error (ImageError.FormatError "Unsupported file format")

/-- `impl ImageDecoder for DecoderType`, `colortype`. -/
def DecoderType.colortype : DecoderType → Except ImageError ColorType
  | DecoderType.PNG d => d.colortype
  | DecoderType.JPEG d => d.colortype
  | _ => Except.error (ImageError.FormatError "Unsupported file format")

/-- `impl ImageDecoder for DecoderType`, `row_len`. -/
def DecoderType.row_len : DecoderType → Except ImageError Nat
  | DecoderType.PNG d => d.row_len
  | DecoderType.JPEG d => d.row_len
  | _ => Except.error (ImageError.FormatError "Unsupported file format")

/-- `impl ImageDecoder for DecoderType`, `read_scanline`: the buffer argument
is forwarded verbatim. -/
def DecoderType.read_scanline (dt : DecoderType) (buf : List Nat) :
    Except ImageError (Nat × List Nat) :=
  match dt with
  | DecoderType.PNG d => d.read_scanline buf
  | DecoderType.JPEG d => d.read_scanline buf
  | _ => Except.error (ImageError.FormatError "Unsupported file format")

/-- `impl ImageDecoder for DecoderType`, `read_image`. -/
def DecoderType.read_image : DecoderType → Except ImageError DecodingResult
  | DecoderType.PNG d => d.read_image
  | DecoderType.JPEG d => d.read_image
  | _ => Except.error (ImageError.FormatError "Unsupported file format")

/-- `impl ImageDecoder for DecoderType`, `is_animated`. -/
def DecoderType.is_animated : DecoderType → Except ImageError Bool
  | DecoderType.PNG d => d.is_animated
  | DecoderType.JPEG d => d.is_animated
  | _ => Except.error (ImageError.FormatError "Unsupported file format")

/-- `impl ImageDecoder for DecoderType`, `into_frames` (consumes the
decoder). -/
def DecoderType.into_frames : DecoderType → Except ImageError Frames
  | DecoderType.PNG d => d.into_frames
  | DecoderType.JPEG d => d.into_frames
  | _ => Except.error (ImageError.FormatError "Unsupported file format")

/-- `impl ImageDecoder for DecoderType`, `load_rect`: the four rectangle
arguments are forwarded verbatim. -/
def DecoderType.load_rect (dt : DecoderType) (x y length width : Nat) :
    Except ImageError (List Nat) :=
  match dt with
  | DecoderType.PNG d => d.load_rect x y length width
  | DecoderType.JPEG d => d.load_rect x y length width
  | _ => Except.error (ImageError.FormatError "Unsupported file format")

/-- Specification-side observer: the format tag keying the active union
member of a `DecoderType`. -/
def DecoderType.formatTag : DecoderType → ImageFormat
  | DecoderType.PNG _ => ImageFormat.PNG
  | DecoderType.JPEG _ => ImageFormat.JPEG
  | DecoderType.PNM _ => ImageFormat.PNM
  | DecoderType.ICO _ => ImageFormat.ICO
  | DecoderType.TIFF _ => ImageFormat.TIFF
  | DecoderType.TGA _ => ImageFormat.TGA
  | DecoderType.BMP _ => ImageFormat.BMP
  | DecoderType.GIF _ => ImageFormat.GIF

/-- `impl ImageDecoder for DecoderWithMetadata`, `dimensions`: forwards to
the inner union. -/
def DecoderWithMetadata.dimensions (c : DecoderWithMetadata) :
    Except ImageError (Nat × Nat) :=
  c.decoder.dimensions

/-- `impl ImageDecoder for DecoderWithMetadata`, `colortype`. -/
def DecoderWithMetadata.colortype (c : DecoderWithMetadata) :
    Except ImageError ColorType :=
  c.decoder.colortype

/-- `impl ImageDecoder for DecoderWithMetadata`, `row_len`. -/
def DecoderWithMetadata.row_len (c : DecoderWithMetadata) :
    Except ImageError Nat :=
  c.decoder.row_len

/-- `impl ImageDecoder for DecoderWithMetadata`, `read_scanline`. -/
def DecoderWithMetadata.read_scanline (c : DecoderWithMetadata)
    (buf : List Nat) : Except ImageError (Nat × List Nat) :=
  c.decoder.read_scanline buf

/-- `impl ImageDecoder for DecoderWithMetadata`, `read_image`. -/
def DecoderWithMetadata.read_image (c : DecoderWithMetadata) :
    Except ImageError DecodingResult :=
  c.decoder.read_image

/-- `impl ImageDecoder for DecoderWithMetadata`, `is_animated`. -/
def DecoderWithMetadata.is_animated (c : DecoderWithMetadata) :
    Except ImageError Bool :=
  c.decoder.is_animated

/-- `impl ImageDecoder for DecoderWithMetadata`, `into_frames`. -/
def DecoderWithMetadata.into_frames (c : DecoderWithMetadata) :
    Except ImageError Frames :=
  c.decoder.into_frames

/-- `impl ImageDecoder for DecoderWithMetadata`, `load_rect`. -/
def DecoderWithMetadata.load_rect (c : DecoderWithMetadata)
    (x y length width : Nat) : Except ImageError (List Nat) :=
  c.decoder.load_rect x y length width

/-- The eight format tags `get_new_decoder` supports. -/
def supportedFormats : List ImageFormat :=
  [ImageFormat.PNG, ImageFormat.JPEG, ImageFormat.PNM, ImageFormat.ICO,
   ImageFormat.TIFF, ImageFormat.TGA, ImageFormat.BMP, ImageFormat.GIF]

/-- A concrete decoder oracle, used to instantiate witness theorems. -/
def sampleImpl : ImageDecoderImpl where
  dimensions := Except.ok (4, 2)
  colortype := Except.ok (ColorType.RGB 8)
  row_len := Except.ok 12
  read_scanline := fun buf => Except.ok (buf.length, buf)
  read_image := Except.ok (DecodingResult.U8 [0, 1, 2])
  is_animated := Except.ok false
  into_frames := Except.ok { count := 1 }
  load_rect := fun _ _ _ _ => Except.ok [7]

/-- A concrete failing decoder constructor result, for witness theorems. -/
def sampleImageError : ImageError := ImageError.Other 9

/-- Concrete decoder-constructor oracles: the fallible constructors succeed
for PNM and ICO and fail for TIFF, so both branches are exercised. -/
def sampleCtors : DecoderConstructors where
  pngNew := fun _ => sampleImpl
  jpegNew := fun _ => sampleImpl
  pnmNew := fun _ => Except.ok sampleImpl
  icoNew := fun _ => Except.ok sampleImpl
  tiffNew := fun _ => Except.error sampleImageError
  tgaNew := fun _ => sampleImpl
  bmpNew := fun _ => sampleImpl
  gifNew := fun _ => sampleImpl

/-- A concrete path and file for witness theorems. -/
def samplePath : FsPath := { s := "img.png" }

/-- A concrete open file handle for witness theorems. -/
def sampleFile : File := { path := "img.png" }

/-- A concrete environment in which every external step succeeds. -/
def sampleEnv : Env where
  metadataLoad := fun _ => Except.ok { store := 5 }
  fileOpen := fun p => Except.ok { path := p.s }
  ctors := sampleCtors
  metadataSave := fun _ _ => Except.ok ()

/-- A concrete environment whose metadata load fails. -/
def sampleEnvMetaFail : Env where
  metadataLoad := fun _ => Except.error { code := 3 }
  fileOpen := fun p => Except.ok { path := p.s }
  ctors := sampleCtors
  metadataSave := fun _ _ => Except.error { code := 4 }

/-- A concrete environment whose file open fails. -/
def sampleEnvOpenFail : Env where
  metadataLoad := fun _ => Except.ok { store := 5 }
  fileOpen := fun _ => Except.error { description := "no such file" }
  ctors := sampleCtors
  metadataSave := fun _ _ => Except.ok ()

/-- A concrete composite for witness theorems. -/
def sampleComposite : DecoderWithMetadata where
  metadata := { store := 5 }
  decoder := DecoderType.PNG sampleImpl

/-- C1: for every `DecoderType` variant other than PNG and JPEG (PNM, ICO,
TIFF, TGA, BMP, GIF), every read-oriented operation — `dimensions`,
`colortype`, `row_len`, `read_scanline`, `read_image`, `is_animated`,
`into_frames`, `load_rect` — returns the decode-kind error
`FormatError("Unsupported file format")`, even though the variant itself was
constructed successfully. -/
theorem C1_non_png_jpeg_ops_fail (dt : DecoderType) (buf : List Nat)
    (x y l w : Nat)
    (hp : dt.formatTag ≠ ImageFormat.PNG)
    (hj : dt.formatTag ≠ ImageFormat.JPEG) :
    dt.dimensions = Except.error (ImageError.FormatError "Unsupported file format") ∧
    dt.colortype = Except.error (ImageError.FormatError "Unsupported file format") ∧
    dt.row_len = Except.error (ImageError.FormatError "Unsupported file format") ∧
    dt.read_scanline buf = Except.error (ImageError.FormatError "Unsupported file format") ∧
    dt.read_image = Except.error (ImageError.FormatError "Unsupported file format") ∧
    dt.is_animated = Except.error (ImageError.FormatError "Unsupported file format") ∧
    dt.into_frames = Except.error (ImageError.FormatError "Unsupported file format") ∧
    dt.load_rect x y l w = Except.error (ImageError.FormatError "Unsupported file format") := by
  cases dt with
  | PNG d => exact absurd rfl hp
  | JPEG d => exact absurd rfl hj
  | PNM d => exact ⟨rfl, rfl, rfl, rfl, rfl, rfl, rfl, rfl⟩
  | ICO d => exact ⟨rfl, rfl, rfl, rfl, rfl, rfl, rfl, rfl⟩
  | TIFF d => exact ⟨rfl, rfl, rfl, rfl, rfl, rfl, rfl, rfl⟩
  | TGA d => exact ⟨rfl, rfl, rfl, rfl, rfl, rfl, rfl, rfl⟩
  | BMP d => exact ⟨rfl, rfl, rfl, rfl, rfl, rfl, rfl, rfl⟩
  | GIF d => exact ⟨rfl, rfl, rfl, rfl, rfl, rfl, rfl, rfl⟩

/-- Witness for C1 at the concrete GIF variant built from `sampleImpl`. -/
theorem C1_non_png_jpeg_ops_fail_witness :
    (DecoderType.GIF sampleImpl).dimensions
      = Except.error (ImageError.FormatError "Unsupported file format") ∧
    (DecoderType.GIF sampleImpl).colortype
      = Except.error (ImageError.FormatError "Unsupported file format") ∧
    (DecoderType.GIF sampleImpl).row_len
      = Except.error (ImageError.FormatError "Unsupported file format") ∧
    (DecoderType.GIF sampleImpl).read_scanline [1, 2]
      = Except.error (ImageError.FormatError "Unsupported file format") ∧
    (DecoderType.GIF sampleImpl).read_image
      = Except.error (ImageError.FormatError "Unsupported file format") ∧
    (DecoderType.GIF sampleImpl).is_animated
      = Except.error (ImageError.FormatError "Unsupported file format") ∧
    (DecoderType.GIF sampleImpl).into_frames
      = Except.error (ImageError.FormatError "Unsupported file format") ∧
    (DecoderType.GIF sampleImpl).load_rect 0 0 2 2
      = Except.error (ImageError.FormatError "Unsupported file format") :=
  C1_non_png_jpeg_ops_fail (DecoderType.GIF sampleImpl) [1, 2] 0 0 2 2
    (by simp [DecoderType.formatTag]) (by simp [DecoderType.formatTag])

/-- C4: every operation of the decode interface on a `DecoderWithMetadata`
returns exactly the result of the same operation, with the same arguments, on
its inner `DecoderType`: the composite adds no logic of its own. -/
theorem C4_composite_forwards_to_union (c : DecoderWithMetadata)
    (buf : List Nat) (x y l w : Nat) :
    c.dimensions = c.decoder.dimensions ∧
    c.colortype = c.decoder.colortype ∧
    c.row_len = c.decoder.row_len ∧
    c.read_scanline buf = c.decoder.read_scanline buf ∧
    c.read_image = c.decoder.read_image ∧
    c.is_animated = c.decoder.is_animated ∧
    c.into_frames = c.decoder.into_frames ∧
    c.load_rect x y l w = c.decoder.load_rect x y l w :=
  ⟨rfl, rfl, rfl, rfl, rfl, rfl, rfl, rfl⟩

/-- C5: when the active variant is PNG or JPEG, each operation is forwarded
verbatim, with its arguments unchanged, to the contained concrete decoder,
and returns that decoder's result unchanged. -/
theorem C5_png_jpeg_forward_verbatim (p q : ImageDecoderImpl)
    (buf : List Nat) (x y l w : Nat) :
    (DecoderType.PNG p).dimensions = p.dimensions ∧
    (DecoderType.PNG p).colortype = p.colortype ∧
    (DecoderType.PNG p).row_len = p.row_len ∧
    (DecoderType.PNG p).read_scanline buf = p.read_scanline buf ∧
    (DecoderType.PNG p).read_image = p.read_image ∧
    (DecoderType.PNG p).is_animated = p.is_animated ∧
    (DecoderType.PNG p).into_frames = p.into_frames ∧
    (DecoderType.PNG p).load_rect x y l w = p.load_rect x y l w ∧
    (DecoderType.JPEG q).dimensions = q.dimensions ∧
    (DecoderType.JPEG q).colortype = q.colortype ∧
    (DecoderType.JPEG q).row_len = q.row_len ∧
    (DecoderType.JPEG q).read_scanline buf = q.read_scanline buf ∧
    (DecoderType.JPEG q).read_image = q.read_image ∧
    (DecoderType.JPEG q).is_animated = q.is_animated ∧
    (DecoderType.JPEG q).into_frames = q.into_frames ∧
    (DecoderType.JPEG q).load_rect x y l w = q.load_rect x y l w :=
  ⟨rfl, rfl, rfl, rfl, rfl, rfl, rfl, rfl,
   rfl, rfl, rfl, rfl, rfl, rfl, rfl, rfl⟩

/-- C10: `Display` of `Internal(s)` outputs exactly `s`, and `Display` of
`MetadataError(e)` / `DecoderError(e)` outputs exactly what `Display` of the
wrapped `e` outputs (modelled by the rendering functions `dm`, `di`): the
top-level message is character-for-character the cause's message, with no
prefix or added context. -/
theorem C10_display_is_verbatim (dm : Rexiv2Error → String)
    (di : ImageError → String) (s : String) (e1 : Rexiv2Error)
    (e2 : ImageError) :
    Rexiv2ImageError.display dm di (Rexiv2ImageError.Internal s) = s ∧
    Rexiv2ImageError.display dm di (Rexiv2ImageError.MetadataError e1) = dm e1 ∧
    Rexiv2ImageError.display dm di (Rexiv2ImageError.DecoderError e2) = di e2 :=
  ⟨rfl, rfl, rfl⟩

/-- C2: for every format tag outside the eight supported values,
`get_new_decoder` fails with `Internal("Unsupported file format")`;
`DecoderWithMetadata::new` with such a tag never returns a composite, and
when the preceding steps (metadata load, file open) succeed its error is
exactly that internal-kind error. -/
theorem C2_unknown_tag_internal_error (env : Env) (path : FsPath)
    (f : ImageFormat) (fl : File) (m : Metadata)
    (hf : f ∉ supportedFormats) :
    get_new_decoder env.ctors f fl
      = Except.error (Rexiv2ImageError.Internal "Unsupported file format") ∧
    (∀ c : DecoderWithMetadata, DecoderWithMetadata.new env path f ≠ Except.ok c) ∧
    (env.metadataLoad path = Except.ok m →
      (∃ fl2, env.fileOpen path = Except.ok fl2) →
      DecoderWithMetadata.new env path f
        = Except.error (Rexiv2ImageError.Internal "Unsupported file format")) := by
  cases f <;> simp [supportedFormats] at hf <;>
    refine ⟨rfl, ?_, ?_⟩ <;>
    · intro hm
      first
      | · rintro ⟨fl2, hfl⟩
          simp [DecoderWithMetadata.new, hm, hfl, get_new_decoder]
      | · intro hok
          unfold DecoderWithMetadata.new at hok
          rcases hmeta : env.metadataLoad path with e | m2 <;> rw [hmeta] at hok
          · exact Except.noConfusion hok
          · rcases hfile : env.fileOpen path with e | fl2 <;> rw [hfile] at hok
            · exact Except.noConfusion hok
            · simp [get_new_decoder] at hok

/-- Witness for C2 at the concrete tag `WEBP` in the all-succeeding
environment. -/
theorem C2_unknown_tag_internal_error_witness :
    get_new_decoder sampleEnv.ctors ImageFormat.WEBP sampleFile
      = Except.error (Rexiv2ImageError.Internal "Unsupported file format") ∧
    (∀ c : DecoderWithMetadata,
      DecoderWithMetadata.new sampleEnv samplePath ImageFormat.WEBP ≠ Except.ok c) ∧
    DecoderWithMetadata.new sampleEnv samplePath ImageFormat.WEBP
      = Except.error (Rexiv2ImageError.Internal "Unsupported file format") := by
  have h := C2_unknown_tag_internal_error sampleEnv samplePath ImageFormat.WEBP
    sampleFile { store := 5 } (by decide)
  exact ⟨h.1, h.2.1, h.2.2 rfl ⟨{ path := "img.png" }, rfl⟩⟩

/-- C3: construction performs its steps in order and the error kind
identifies the failing step.  If the metadata load fails with `e`, the result
is `MetadataError(e)` regardless of the file-open and constructor oracles
(the file is never consulted); if the metadata load succeeds and the file
open fails with `e`, the result is `Internal` carrying the I/O error's
description; and a composite is returned only when all three steps succeed,
so no partially constructed composite is ever returned. -/
theorem C3_construction_step_order (env : Env) (path : FsPath)
    (f : ImageFormat) :
    (∀ e, env.metadataLoad path = Except.error e →
      ∀ (fo : FsPath → Except IoError File) (ct : DecoderConstructors)
        (ms : Metadata → FsPath → Except Rexiv2Error Unit),
        DecoderWithMetadata.new (Env.mk env.metadataLoad fo ct ms) path f
          = Except.error (Rexiv2ImageError.MetadataError e)) ∧
    (∀ m e, env.metadataLoad path = Except.ok m →
      env.fileOpen path = Except.error e →
      DecoderWithMetadata.new env path f
        = Except.error (Rexiv2ImageError.Internal e.description)) ∧
    (∀ c, DecoderWithMetadata.new env path f = Except.ok c →
      ∃ m fl, env.metadataLoad path = Except.ok m ∧
        env.fileOpen path = Except.ok fl ∧
        get_new_decoder env.ctors f fl = Except.ok c.decoder ∧
        c.metadata = m) := by
  refine ⟨?_, ?_, ?_⟩
  · intro e he fo ct ms
    simp [DecoderWithMetadata.new, he, Rexiv2ImageError.fromRexiv2]
  · intro m e hm he
    simp [DecoderWithMetadata.new, hm, he, Rexiv2ImageError.fromIo]
  · intro c hok
    unfold DecoderWithMetadata.new at hok
    split at hok
    · exact Except.noConfusion hok
    next m hmeta =>
      split at hok
      · exact Except.noConfusion hok
      next fl hfile =>
        split at hok
        · exact Except.noConfusion hok
        next d hdec =>
          injection hok with h
          exact ⟨m, fl, hmeta, hfile, by rw [← h]; exact hdec, by rw [← h]⟩

/-- Witness for C3: the metadata-failure branch in `sampleEnvMetaFail`, the
open-failure branch in `sampleEnvOpenFail`, and the success decomposition in
`sampleEnv`, all at the concrete tag `PNG`. -/
theorem C3_construction_step_order_witness :
    DecoderWithMetadata.new (Env.mk sampleEnvMetaFail.metadataLoad
        sampleEnvOpenFail.fileOpen sampleCtors sampleEnv.metadataSave)
        samplePath ImageFormat.PNG
      = Except.error (Rexiv2ImageError.MetadataError { code := 3 }) ∧
    DecoderWithMetadata.new sampleEnvOpenFail samplePath ImageFormat.PNG
      = Except.error (Rexiv2ImageError.Internal "no such file") ∧
    (∃ m fl, sampleEnv.metadataLoad samplePath = Except.ok m ∧
      sampleEnv.fileOpen samplePath = Except.ok fl ∧
      get_new_decoder sampleEnv.ctors ImageFormat.PNG fl
        = Except.ok (DecoderWithMetadata.mk { store := 5 }
            (DecoderType.PNG (sampleCtors.pngNew sampleFile))).decoder ∧
      (DecoderWithMetadata.mk { store := 5 }
        (DecoderType.PNG (sampleCtors.pngNew sampleFile))).metadata = m) := by
  refine ⟨?_, ?_, ?_⟩
  · exact (C3_construction_step_order sampleEnvMetaFail samplePath
      ImageFormat.PNG).1 { code := 3 } rfl sampleEnvOpenFail.fileOpen
      sampleCtors sampleEnv.metadataSave
  · exact (C3_construction_step_order sampleEnvOpenFail samplePath
      ImageFormat.PNG).2.1 { store := 5 } { description := "no such file" }
      rfl rfl
  · exact (C3_construction_step_order sampleEnv samplePath
      ImageFormat.PNG).2.2
      (DecoderWithMetadata.mk { store := 5 }
        (DecoderType.PNG (sampleCtors.pngNew sampleFile))) rfl

/-- C6: `save_metadata` returns a metadata-kind error if and only if the
underlying store's save operation fails; its result depends only on the held
metadata store and the target path (so it is independent of the decoder and
of any pixel-decoding operation, and the same store may be saved to several
destinations), and every error it returns is a `MetadataError`. -/
theorem C6_save_metadata_independent (env : Env) (c c2 : DecoderWithMetadata)
    (p : FsPath) :
    ((∃ e, DecoderWithMetadata.save_metadata env c p
        = Except.error (Rexiv2ImageError.MetadataError e)) ↔
      (∃ e, env.metadataSave c.metadata p = Except.error e)) ∧
    (c.metadata = c2.metadata →
      DecoderWithMetadata.save_metadata env c p
        = DecoderWithMetadata.save_metadata env c2 p) ∧
    (∀ er, DecoderWithMetadata.save_metadata env c p = Except.error er →
      ∃ e, er = Rexiv2ImageError.MetadataError e) ∧
    (DecoderWithMetadata.save_metadata env c p = Except.ok () ↔
      env.metadataSave c.metadata p = Except.ok ()) := by
  unfold DecoderWithMetadata.save_metadata
  refine ⟨?_, ?_, ?_, ?_⟩
  · constructor
    · rintro ⟨e, he⟩
      rcases hs : env.metadataSave c.metadata p with e2 | u <;> rw [hs] at he
      · exact ⟨e2, rfl⟩
      · exact Except.noConfusion he
    · rintro ⟨e, he⟩
      rw [he]
      exact ⟨e, rfl⟩
  · intro hmeta
    rw [hmeta]
  · intro er her
    rcases hs : env.metadataSave c.metadata p with e2 | u <;> rw [hs] at her
    · injection her with h
      exact ⟨e2, h.symm⟩
    · exact Except.noConfusion her
  · rcases hs : env.metadataSave c.metadata p with e2 | u
    · simp
    · cases u
      simp

/-- Witness for C6 at the concrete composite and environment; the
independence part is applied to a composite holding the same store but a
different (GIF) decoder. -/
theorem C6_save_metadata_independent_witness :
    ((∃ e, DecoderWithMetadata.save_metadata sampleEnv sampleComposite samplePath
        = Except.error (Rexiv2ImageError.MetadataError e)) ↔
      (∃ e, sampleEnv.metadataSave sampleComposite.metadata samplePath
        = Except.error e)) ∧
    DecoderWithMetadata.save_metadata sampleEnv sampleComposite samplePath
      = DecoderWithMetadata.save_metadata sampleEnv
          { metadata := { store := 5 }, decoder := DecoderType.GIF sampleImpl }
          samplePath := by
  have h := C6_save_metadata_independent sampleEnv sampleComposite
    { metadata := { store := 5 }, decoder := DecoderType.GIF sampleImpl }
    samplePath
  exact ⟨h.1, h.2.1 rfl⟩

/-- C7 counterexample: `cause` behaves as claimed, but not every error value
renders to a non-empty string: `Display` of `Internal("")` is the empty
string (the source writes the carried string verbatim), so the claim as
stated is false at the value `Internal("")`. -/
theorem C7_counterexample_empty_internal :
    Rexiv2ImageError.display (fun _ => "meta") (fun _ => "img")
      (Rexiv2ImageError.Internal "") = "" ∧
    Rexiv2ImageError.cause (Rexiv2ImageError.Internal "") = none :=
  ⟨rfl, rfl⟩

/-- C7 amended: `cause` returns `some` of the wrapped underlying error for
`MetadataError` and `DecoderError` and `none` for `Internal`; `Display`
renders `Internal(s)` as exactly `s` and the wrapping kinds as exactly their
cause's rendering, so the output is non-empty whenever the carried diagnostic
(resp. the cause's rendering) is non-empty — but `Internal("")` renders as
the empty string. -/
theorem C7_cause_and_display (dm : Rexiv2Error → String)
    (di : ImageError → String) (e1 : Rexiv2Error) (e2 : ImageError)
    (s : String) :
    Rexiv2ImageError.cause (Rexiv2ImageError.MetadataError e1)
      = some (Sum.inl e1) ∧
    Rexiv2ImageError.cause (Rexiv2ImageError.DecoderError e2)
      = some (Sum.inr e2) ∧
    Rexiv2ImageError.cause (Rexiv2ImageError.Internal s) = none ∧
    Rexiv2ImageError.display dm di (Rexiv2ImageError.MetadataError e1)
      = dm e1 ∧
    Rexiv2ImageError.display dm di (Rexiv2ImageError.DecoderError e2)
      = di e2 ∧
    Rexiv2ImageError.display dm di (Rexiv2ImageError.Internal s) = s ∧
    (s ≠ "" →
      Rexiv2ImageError.display dm di (Rexiv2ImageError.Internal s) ≠ "") := by
  refine ⟨rfl, rfl, rfl, rfl, rfl, rfl, ?_⟩
  intro hs
  simpa [Rexiv2ImageError.display] using hs

/-- Witness for C7 (amended) at concrete renderers, errors and the non-empty
diagnostic string. -/
theorem C7_cause_and_display_witness :
    Rexiv2ImageError.cause (Rexiv2ImageError.MetadataError { code := 3 })
      = some (Sum.inl { code := 3 }) ∧
    Rexiv2ImageError.cause (Rexiv2ImageError.DecoderError sampleImageError)
      = some (Sum.inr sampleImageError) ∧
    Rexiv2ImageError.cause (Rexiv2ImageError.Internal "oops") = none ∧
    Rexiv2ImageError.display (fun _ => "meta") (fun _ => "img")
      (Rexiv2ImageError.MetadataError { code := 3 }) = "meta" ∧
    Rexiv2ImageError.display (fun _ => "meta") (fun _ => "img")
      (Rexiv2ImageError.DecoderError sampleImageError) = "img" ∧
    Rexiv2ImageError.display (fun _ => "meta") (fun _ => "img")
      (Rexiv2ImageError.Internal "oops") = "oops" ∧
    Rexiv2ImageError.display (fun _ => "meta") (fun _ => "img")
      (Rexiv2ImageError.Internal "oops") ≠ "" := by
  have h := C7_cause_and_display (fun _ => "meta") (fun _ => "img")
    { code := 3 } sampleImageError "oops"
  exact ⟨h.1, h.2.1, h.2.2.1, h.2.2.2.1, h.2.2.2.2.1, h.2.2.2.2.2.1,
    h.2.2.2.2.2.2 (by decide)⟩

/-- C8: each supported tag maps to exactly one constructor call.  For the
fallible constructors (PNM, ICO, TIFF) a constructor failure propagates as a
decode-kind `DecoderError` wrapping the image error and a success is wrapped
in the matching variant; for PNG, JPEG, TGA, BMP and GIF the constructor is
infallible and its result is wrapped directly, so selection always succeeds
there. -/
theorem C8_selection_constructor_calls (ct : DecoderConstructors) (fl : File) :
    (∀ e, ct.pnmNew fl = Except.error e →
      get_new_decoder ct ImageFormat.PNM fl
        = Except.error (Rexiv2ImageError.DecoderError e)) ∧
    (∀ e, ct.icoNew fl = Except.error e →
      get_new_decoder ct ImageFormat.ICO fl
        = Except.error (Rexiv2ImageError.DecoderError e)) ∧
    (∀ e, ct.tiffNew fl = Except.error e →
      get_new_decoder ct ImageFormat.TIFF fl
        = Except.error (Rexiv2ImageError.DecoderError e)) ∧
    (∀ d, ct.pnmNew fl = Except.ok d →
      get_new_decoder ct ImageFormat.PNM fl = Except.ok (DecoderType.PNM d)) ∧
    (∀ d, ct.icoNew fl = Except.ok d →
      get_new_decoder ct ImageFormat.ICO fl = Except.ok (DecoderType.ICO d)) ∧
    (∀ d, ct.tiffNew fl = Except.ok d →
      get_new_decoder ct ImageFormat.TIFF fl = Except.ok (DecoderType.TIFF d)) ∧
    get_new_decoder ct ImageFormat.PNG fl
      = Except.ok (DecoderType.PNG (ct.pngNew fl)) ∧
    get_new_decoder ct ImageFormat.JPEG fl
      = Except.ok (DecoderType.JPEG (ct.jpegNew fl)) ∧
    get_new_decoder ct ImageFormat.TGA fl
      = Except.ok (DecoderType.TGA (ct.tgaNew fl)) ∧
    get_new_decoder ct ImageFormat.BMP fl
      = Except.ok (DecoderType.BMP (ct.bmpNew fl)) ∧
    get_new_decoder ct ImageFormat.GIF fl
      = Except.ok (DecoderType.GIF (ct.gifNew fl)) := by
  refine ⟨?_, ?_, ?_, ?_, ?_, ?_, rfl, rfl, rfl, rfl, rfl⟩ <;>
    · intro x hx
      simp [get_new_decoder, hx, Rexiv2ImageError.fromImage]

/-- Witness for C8 in `sampleCtors`, where the PNM constructor succeeds and
the TIFF constructor fails. -/
theorem C8_selection_constructor_calls_witness :
    get_new_decoder sampleCtors ImageFormat.TIFF sampleFile
      = Except.error (Rexiv2ImageError.DecoderError sampleImageError) ∧
    get_new_decoder sampleCtors ImageFormat.PNM sampleFile
      = Except.ok (DecoderType.PNM sampleImpl) ∧
    get_new_decoder sampleCtors ImageFormat.GIF sampleFile
      = Except.ok (DecoderType.GIF (sampleCtors.gifNew sampleFile)) := by
  have h := C8_selection_constructor_calls sampleCtors sampleFile
  exact ⟨h.2.2.1 sampleImageError rfl, h.2.2.2.1 sampleImpl rfl,
    h.2.2.2.2.2.2.2.2.2.2⟩

/-- C9: a successful `get_new_decoder` on a supported tag returns the
`DecoderType` variant keyed by that tag; and since no operation of the
embedding replaces the variant after construction (the decode operations are
functions of the union returning results, never a new union), the active
union member always matches the format tag that selected it. -/
theorem C9_variant_matches_tag (ct : DecoderConstructors) (f : ImageFormat)
    (fl : File) (d : DecoderType)
    (h : get_new_decoder ct f fl = Except.ok d) :
    d.formatTag = f := by
  cases f <;> unfold get_new_decoder at h
  case PNG => injection h with h2; rw [← h2]; rfl
  case JPEG => injection h with h2; rw [← h2]; rfl
  case PNM =>
    rcases hc : ct.pnmNew fl with e | d2 <;> rw [hc] at h
    · exact Except.noConfusion h
    · injection h with h2; rw [← h2]; rfl
  case ICO =>
    rcases hc : ct.icoNew fl with e | d2 <;> rw [hc] at h
    · exact Except.noConfusion h
    · injection h with h2; rw [← h2]; rfl
  case TIFF =>
    rcases hc : ct.tiffNew fl with e | d2 <;> rw [hc] at h
    · exact Except.noConfusion h
    · injection h with h2; rw [← h2]; rfl
  case TGA => injection h with h2; rw [← h2]; rfl
  case BMP => injection h with h2; rw [← h2]; rfl
  case GIF => injection h with h2; rw [← h2]; rfl
  case WEBP => exact Except.noConfusion h
  case HDR => exact Except.noConfusion h

/-- Witness for C9 at the concrete tag `BMP` in `sampleCtors`. -/
theorem C9_variant_matches_tag_witness :
    (DecoderType.BMP (sampleCtors.bmpNew sampleFile)).formatTag
      = ImageFormat.BMP :=
  C9_variant_matches_tag sampleCtors ImageFormat.BMP sampleFile
    (DecoderType.BMP (sampleCtors.bmpNew sampleFile)) rfl
